import Mathlib

/-!
Shallow embedding of `src/hooks/useMediaPipe.ts` (MediaPipeTracker).

Numbers are modelled as exact rationals (`ℚ`); the JavaScript values of
interest (aspect ratios, scales, offsets, visibilities) are all exact in
floating point at the concrete inputs checked here, and every algebraic
fact proved is about the exact arithmetic the source expresses.

Cosmetic time-animated colour (hue cycling) is not part of the model; the
geometry (positions, radii, segment endpoints), the opacity channel and the
control flow (early returns, guard conditions, state updates) are embedded
faithfully from the source.
-/

/-- The aspect-fit transform computed per frame inside `onResults`
(fields `scaleX`, `scaleY`, `offsetX`, `offsetY` in the source). -/
structure FitTransform where
  scaleX : ℚ
  scaleY : ℚ
  offsetX : ℚ
  offsetY : ℚ
deriving DecidableEq

/-- Embedding of the fit computation in `onResults` (useMediaPipe.ts lines
45-63): `videoAspect = videoWidth / videoHeight`,
`canvasAspect = canvasWidth / canvasHeight`; if `videoAspect > canvasAspect`
the code sets `scaleY = canvas.height`, `scaleX = canvas.height * videoAspect`,
`offsetX = (canvas.width - scaleX) / 2`, `offsetY = 0`; otherwise
`scaleX = canvas.width`, `scaleY = canvas.width / videoAspect`,
`offsetX = 0`, `offsetY = (canvas.height - scaleY) / 2`. -/
def computeFit (vw vh cw ch : ℚ) : FitTransform :=
  if vw / vh > cw / ch then
    { scaleX := ch * (vw / vh), scaleY := ch
      offsetX := (cw - ch * (vw / vh)) / 2, offsetY := 0 }
  else
    { scaleX := cw, scaleY := cw / (vw / vh)
      offsetX := 0, offsetY := (ch - cw / (vw / vh)) / 2 }

/-- A landmark as in the `Landmark` interface of the source:
normalized coordinates plus an optional visibility scalar. -/
structure Landmark where
  x : ℚ
  y : ℚ
  z : ℚ
  visibility : Option ℚ
deriving DecidableEq

/-- One detected hand as in the `HandDetectionResult` interface. The landmark
array is modelled as a list of optional entries so that missing/undefined
slots are representable. -/
structure HandDetectionResult where
  landmarks : List (Option Landmark)
  confidence : ℚ
  handedness : String
deriving DecidableEq

/-- The hardcoded `connections` array of `drawLandmarks`
(useMediaPipe.ts lines 139-146). -/
def connections : List (Nat × Nat) :=
  [(0, 1), (1, 2), (2, 3), (3, 4),
   (0, 5), (5, 6), (6, 7), (7, 8),
   (5, 9), (9, 10), (10, 11), (11, 12),
   (9, 13), (13, 14), (14, 15), (15, 16),
   (13, 17), (17, 18), (18, 19), (19, 20),
   (0, 17)]

/-- JavaScript indexing `hand.landmarks[i]`: out-of-bounds or an undefined
slot both read as absent. -/
def lmAt (lms : List (Option Landmark)) (i : Nat) : Option Landmark :=
  lms.getD i none

/-- A line segment produced by one `moveTo`/`lineTo` pair of the
connection-drawing loop. -/
structure Segment where
  x1 : ℚ
  y1 : ℚ
  x2 : ℚ
  y2 : ℚ
deriving DecidableEq

/-- The transformed segment the source draws for an edge whose two endpoint
landmarks are `a` and `b`: each coordinate is `v * scale + offset`. -/
def mkSegment (f : FitTransform) (a b : Landmark) : Segment :=
  { x1 := a.x * f.scaleX + f.offsetX, y1 := a.y * f.scaleY + f.offsetY
    x2 := b.x * f.scaleX + f.offsetX, y2 := b.y * f.scaleY + f.offsetY }

/-- The truthiness guard `hand.landmarks[start] && hand.landmarks[end]` of the
connection loop: both endpoint slots hold a landmark object. -/
def edgeDrawn (lms : List (Option Landmark)) (p : Nat × Nat) : Bool :=
  (lmAt lms p.1).isSome && (lmAt lms p.2).isSome

/-- Embedding of the connection-drawing loop (useMediaPipe.ts lines 158-170):
for each hardcoded edge, if both endpoint slots are present, a segment between
the transformed endpoints is emitted; otherwise the edge is skipped. -/
def connectionSegments (f : FitTransform) (lms : List (Option Landmark)) :
    List Segment :=
  connections.filterMap fun p =>
    match lmAt lms p.1, lmAt lms p.2 with
    | some a, some b => some (mkSegment f a b)
    | _, _ => none

/-- JavaScript `landmark.visibility || 1`: an absent visibility, and a
visibility equal to `0`, both coerce to `1`. -/
def effVisibility : Option ℚ → ℚ
  | none => 1
  | some v => if v = 0 then 1 else v

/-- One landmark disc as painted by the disc loop of `drawLandmarks`
(useMediaPipe.ts lines 173-209): centre, radius, the three gradient stop
alphas, and the index-label alpha (present only when `radius > 10`). -/
structure Disc where
  x : ℚ
  y : ℚ
  radius : ℚ
  alpha0 : ℚ
  alpha1 : ℚ
  alpha2 : ℚ
  textAlpha : Option ℚ
deriving DecidableEq

/-- Embedding of the per-landmark disc rendering: position via the fit
transform, `visibility = landmark.visibility || 1`,
`baseRadius = max 8 (min scaleX scaleY / 40)`,
`radius = baseRadius * (1 + z * 1.5) * visibility`, gradient alphas
`visibility`, `visibility * 0.8`, `visibility * 0.2`, and the index label at
alpha `visibility * 0.9` drawn only when `radius > 10`. -/
def drawDisc (f : FitTransform) (lm : Landmark) : Disc :=
  let x := lm.x * f.scaleX + f.offsetX
  let y := lm.y * f.scaleY + f.offsetY
  let visibility := effVisibility lm.visibility
  let baseRadius := max 8 (min f.scaleX f.scaleY / 40)
  let radius := baseRadius * (1 + lm.z * 1.5) * visibility
  { x := x, y := y, radius := radius
    alpha0 := visibility, alpha1 := visibility * 0.8, alpha2 := visibility * 0.2
    textAlpha := if radius > 10 then some (visibility * 0.9) else none }

theorem computeFit_wide (vw vh cw ch : ℚ) (h : vw / vh > cw / ch) :
    computeFit vw vh cw ch =
      { scaleX := ch * (vw / vh), scaleY := ch
        offsetX := (cw - ch * (vw / vh)) / 2, offsetY := 0 } := by
  simp [computeFit, h]

theorem computeFit_tall (vw vh cw ch : ℚ) (h : ¬ vw / vh > cw / ch) :
    computeFit vw vh cw ch =
      { scaleX := cw, scaleY := cw / (vw / vh)
        offsetX := 0, offsetY := (ch - cw / (vw / vh)) / 2 } := by
  simp [computeFit, h]

/-- C1 counterexample: for video 1280x720 and canvas 400x800 the code takes
the wide branch; the nonzero offset `offsetX` is negative (-4600/9, about
-511.1), and the normalized landmark x = 0 maps to a negative canvas
coordinate, outside the canvas — the transform crops content. -/
theorem fit_crops_at_tall_canvas :
    (computeFit 1280 720 400 800).offsetX = -4600 / 9 ∧
    (computeFit 1280 720 400 800).offsetX < 0 ∧
    0 * (computeFit 1280 720 400 800).scaleX +
      (computeFit 1280 720 400 800).offsetX < 0 := by
  refine ⟨?_, ?_, ?_⟩ <;> norm_num [computeFit]

/-- C1 (amended): for all positive sizes the fit transform covers the canvas
rather than letterboxing it: at least one offset is zero, both offsets are
non-positive, both scaled extents are at least the canvas extents, and the
transformed video box `[offsetX, offsetX + scaleX] x [offsetY, offsetY + scaleY]`
contains the canvas box `[0, cw] x [0, ch]` (so content can be cropped on the
overflowing axis, never letterboxed). -/
theorem fit_covers_canvas (vw vh cw ch : ℚ)
    (hvw : 0 < vw) (hvh : 0 < vh) (hcw : 0 < cw) (hch : 0 < ch) :
    ((computeFit vw vh cw ch).offsetX = 0 ∨ (computeFit vw vh cw ch).offsetY = 0) ∧
    (computeFit vw vh cw ch).offsetX ≤ 0 ∧
    (computeFit vw vh cw ch).offsetY ≤ 0 ∧
    cw ≤ (computeFit vw vh cw ch).scaleX ∧
    ch ≤ (computeFit vw vh cw ch).scaleY ∧
    cw ≤ (computeFit vw vh cw ch).offsetX + (computeFit vw vh cw ch).scaleX ∧
    ch ≤ (computeFit vw vh cw ch).offsetY + (computeFit vw vh cw ch).scaleY := by
  by_cases h : vw / vh > cw / ch
  · rw [computeFit_wide vw vh cw ch h]
    have hkey : cw ≤ ch * (vw / vh) := by
      rw [mul_div_assoc', le_div_iff hvh]
      have h2 : cw * vh < vw * ch := (div_lt_div_iff hch hvh).mp h
      nlinarith
    refine ⟨Or.inr rfl, by dsimp; linarith, by dsimp; linarith,
      by dsimp; linarith, by dsimp; linarith, by dsimp; linarith, by dsimp; linarith⟩
  · rw [computeFit_tall vw vh cw ch h]
    have hva : 0 < vw / vh := div_pos hvw hvh
    have hkey : ch ≤ cw / (vw / vh) := by
      rw [le_div_iff hva]
      have h2 : vw / vh ≤ cw / ch := not_lt.mp h
      have h3 : ch * (vw / vh) ≤ ch * (cw / ch) :=
        mul_le_mul_of_nonneg_left h2 (le_of_lt hch)
      have h4 : ch * (cw / ch) = cw := by
        field_simp
      nlinarith
    refine ⟨Or.inl rfl, by dsimp; linarith, by dsimp; linarith,
      by dsimp; linarith, by dsimp; linarith, by dsimp; linarith, by dsimp; linarith⟩

/-- Witness for `fit_covers_canvas` at video 1280x720, canvas 400x800. -/
theorem fit_covers_canvas_witness :
    ((computeFit 1280 720 400 800).offsetX = 0 ∨ (computeFit 1280 720 400 800).offsetY = 0) ∧
    (computeFit 1280 720 400 800).offsetX ≤ 0 ∧
    (computeFit 1280 720 400 800).offsetY ≤ 0 ∧
    400 ≤ (computeFit 1280 720 400 800).scaleX ∧
    800 ≤ (computeFit 1280 720 400 800).scaleY ∧
    400 ≤ (computeFit 1280 720 400 800).offsetX + (computeFit 1280 720 400 800).scaleX ∧
    800 ≤ (computeFit 1280 720 400 800).offsetY + (computeFit 1280 720 400 800).scaleY :=
  fit_covers_canvas 1280 720 400 800 (by norm_num) (by norm_num) (by norm_num) (by norm_num)

/-- C3 counterexample: for video 1280x720 and canvas 600x600 the code does
not produce the width-fit values the claim states: `scaleX` is not 600,
`scaleY` is not 337.5, `offsetX` is not 0 and `offsetY` is not 131.25. -/
theorem fit_square_canvas_counterexample :
    (computeFit 1280 720 600 600).scaleX ≠ 600 ∧
    (computeFit 1280 720 600 600).scaleY ≠ 337.5 ∧
    (computeFit 1280 720 600 600).offsetX ≠ 0 ∧
    (computeFit 1280 720 600 600).offsetY ≠ 131.25 := by
  refine ⟨?_, ?_, ?_, ?_⟩ <;> norm_num [computeFit]

/-- C3 (amended): for video 1280x720 and canvas 600x600 the comparison
`videoAspect > canvasAspect` holds (16/9 > 1), so the height-fit (wide)
branch is taken: `scaleY = 600`, `scaleX = 3200/3` (about 1066.67),
`offsetX = -700/3` (about -233.33), `offsetY = 0`. -/
theorem fit_square_canvas_actual :
    (1280 : ℚ) / 720 > 600 / 600 ∧
    computeFit 1280 720 600 600 =
      { scaleX := 3200 / 3, scaleY := 600, offsetX := -700 / 3, offsetY := 0 } := by
  constructor
  · norm_num
  · rw [computeFit_wide 1280 720 600 600 (by norm_num)]
    norm_num

/-- C4: when the aspect ratios are exactly equal the strict `>` comparison
fails and the else branch runs, but its output coincides exactly with the
height-fit formulas the claim states: `scaleY = canvas height`,
`scaleX = canvas height * videoAspect`, `offsetY = 0` (and `offsetX = 0`). -/
theorem fit_equal_aspect (vw vh cw ch : ℚ)
    (hvh : 0 < vh) (hcw : 0 < cw) (hch : 0 < ch)
    (heq : vw / vh = cw / ch) :
    (computeFit vw vh cw ch).scaleY = ch ∧
    (computeFit vw vh cw ch).scaleX = ch * (vw / vh) ∧
    (computeFit vw vh cw ch).offsetY = 0 ∧
    (computeFit vw vh cw ch).offsetX = 0 := by
  have hnot : ¬ vw / vh > cw / ch := by rw [heq]; exact lt_irrefl _
  rw [computeFit_tall vw vh cw ch hnot]
  have hsy : cw / (vw / vh) = ch := by
    rw [heq]
    rw [div_div_eq_mul_div, mul_comm, mul_div_assoc]
    rw [div_self (ne_of_gt hcw), mul_one]
  have hsx : cw = ch * (vw / vh) := by
    rw [heq, mul_div_assoc', mul_comm, mul_div_assoc, div_self (ne_of_gt hch), mul_one]
  refine ⟨hsy, ?_, ?_, rfl⟩
  · dsimp; exact hsx
  · dsimp; rw [hsy, sub_self, zero_div]

/-- Witness for `fit_equal_aspect` at video 1280x720, canvas 320x180
(both aspect 16/9). -/
theorem fit_equal_aspect_witness :
    (computeFit 1280 720 320 180).scaleY = 180 ∧
    (computeFit 1280 720 320 180).scaleX = 180 * ((1280 : ℚ) / 720) ∧
    (computeFit 1280 720 320 180).offsetY = 0 ∧
    (computeFit 1280 720 320 180).offsetX = 0 :=
  fit_equal_aspect 1280 720 320 180 (by norm_num) (by norm_num) (by norm_num)
    (by norm_num)

/-- The error message set by `initializeMediaPipe` on failure. -/
def initFailMsg : String := "MediaPipeの初期化に失敗しました"

/-- The error message set by `startCamera` on failure. -/
def cameraFailMsg : String := "カメラの開始に失敗しました"

/-- The hook's state: the two refs that matter for control flow
(`handsRef`, `videoRef`, `cameraRef`, modelled as presence flags) and the
four React state cells (`isInitialized`, `isStreaming`, `detectionResults`,
`error`). -/
structure SessionState where
  hands : Bool
  video : Bool
  camera : Bool
  isInitialized : Bool
  isStreaming : Bool
  detectionResults : List HandDetectionResult
  error : String
deriving DecidableEq

/-- Embedding of `initializeMediaPipe` (useMediaPipe.ts lines 101-127):
construct and configure the detector; on success store the handle, set
`isInitialized` and clear the error; if construction throws, set the
initialization error message. The `fails` flag models whether the external
constructor throws. -/
def initializeMediaPipe (fails : Bool) (s : SessionState) : SessionState :=
  if fails then { s with error := initFailMsg }
  else { s with hands := true, isInitialized := true, error := "" }

/-- Embedding of `startCamera` (useMediaPipe.ts lines 218-243): if the
detector handle or the video element is absent, await `initializeMediaPipe`
and return; otherwise construct the camera and start it — on success store
the handle, set `isStreaming` and clear the error, and if construction or
start throws, set the camera error message. The two flags model whether the
respective external calls throw. -/
def startCamera (initFails cameraFails : Bool) (s : SessionState) :
    SessionState :=
  if !s.hands || !s.video then initializeMediaPipe initFails s
  else if cameraFails then { s with error := cameraFailMsg }
  else { s with camera := true, isStreaming := true, error := "" }

/-- Embedding of `stopCamera` (useMediaPipe.ts lines 246-253): if a camera
handle is present, stop and drop it; then clear `isStreaming` and
`detectionResults` unconditionally. -/
def stopCamera (s : SessionState) : SessionState :=
  if s.camera then
    { s with camera := false, isStreaming := false, detectionResults := [] }
  else
    { s with isStreaming := false, detectionResults := [] }

/-- C2 counterexample: starting from a state where the detector handle is
absent (video element present), a `startCamera` call whose external calls
would all succeed performs initialization and returns: the camera is not
constructed and `isStreaming` stays `false`, contrary to the claim that it
"then constructs the camera source, starts capture, and sets the streaming
state". -/
theorem startCamera_uninit_counterexample :
    (startCamera false false
        { hands := false, video := true, camera := false, isInitialized := false,
          isStreaming := false, detectionResults := [], error := "" }).isInitialized
      = true ∧
    (startCamera false false
        { hands := false, video := true, camera := false, isInitialized := false,
          isStreaming := false, detectionResults := [], error := "" }).camera
      = false ∧
    (startCamera false false
        { hands := false, video := true, camera := false, isInitialized := false,
          isStreaming := false, detectionResults := [], error := "" }).isStreaming
      = false := ⟨rfl, rfl, rfl⟩

/-- C2 (amended): whenever the detector handle or the video element is
absent, `startCamera` only runs `initializeMediaPipe` and returns — it does
not construct the camera and does not set the streaming state in that call,
whatever the outcome of the external calls. -/
theorem startCamera_uninit_initializes_only (s : SessionState)
    (iF cF : Bool) (h : s.hands = false ∨ s.video = false) :
    startCamera iF cF s = initializeMediaPipe iF s ∧
    (startCamera iF cF s).camera = s.camera ∧
    (startCamera iF cF s).isStreaming = s.isStreaming := by
  have hguard : (!s.hands || !s.video) = true := by
    rcases h with h | h <;> simp [h]
  refine ⟨by simp [startCamera, hguard], ?_, ?_⟩ <;>
    · simp only [startCamera, hguard, if_true, Bool.true_eq]
      cases iF <;> simp [initializeMediaPipe]

/-- Witness for `startCamera_uninit_initializes_only` at a concrete
uninitialized state. -/
theorem startCamera_uninit_initializes_only_witness :
    startCamera true true
        { hands := false, video := false, camera := false, isInitialized := false,
          isStreaming := false, detectionResults := [], error := "" }
      = initializeMediaPipe true
        { hands := false, video := false, camera := false, isInitialized := false,
          isStreaming := false, detectionResults := [], error := "" } ∧
    (startCamera true true
        { hands := false, video := false, camera := false, isInitialized := false,
          isStreaming := false, detectionResults := [], error := "" }).camera
      = false ∧
    (startCamera true true
        { hands := false, video := false, camera := false, isInitialized := false,
          isStreaming := false, detectionResults := [], error := "" }).isStreaming
      = false :=
  startCamera_uninit_initializes_only _ true true (Or.inl rfl)

/-- C5: from an initialized state (detector and video present, not yet
streaming), a failing `startCamera` sets the non-empty camera error message
and leaves `isStreaming` false; a subsequent succeeding `startCamera` clears
the error to the empty string and sets `isStreaming` — the error state is
not terminal. -/
theorem startCamera_error_recoverable (s : SessionState) (iF iF2 : Bool)
    (hh : s.hands = true) (hv : s.video = true) (hs : s.isStreaming = false) :
    (startCamera iF true s).error = cameraFailMsg ∧
    (startCamera iF true s).error ≠ "" ∧
    (startCamera iF true s).isStreaming = false ∧
    (startCamera iF2 false (startCamera iF true s)).error = "" ∧
    (startCamera iF2 false (startCamera iF true s)).isStreaming = true := by
  have h1 : startCamera iF true s = { s with error := cameraFailMsg } := by
    simp [startCamera, hh, hv]
  refine ⟨by rw [h1], by rw [h1]; exact (by decide : cameraFailMsg ≠ ""),
    by rw [h1]; exact hs, ?_, ?_⟩ <;>
    · rw [h1]
      simp [startCamera, hh, hv]

/-- Witness for `startCamera_error_recoverable` at a concrete initialized
state. -/
theorem startCamera_error_recoverable_witness :
    (startCamera false true
        { hands := true, video := true, camera := false, isInitialized := true,
          isStreaming := false, detectionResults := [], error := "" }).error
      = cameraFailMsg ∧
    (startCamera false true
        { hands := true, video := true, camera := false, isInitialized := true,
          isStreaming := false, detectionResults := [], error := "" }).error
      ≠ "" ∧
    (startCamera false true
        { hands := true, video := true, camera := false, isInitialized := true,
          isStreaming := false, detectionResults := [], error := "" }).isStreaming
      = false ∧
    (startCamera false false (startCamera false true
        { hands := true, video := true, camera := false, isInitialized := true,
          isStreaming := false, detectionResults := [], error := "" })).error
      = "" ∧
    (startCamera false false (startCamera false true
        { hands := true, video := true, camera := false, isInitialized := true,
          isStreaming := false, detectionResults := [], error := "" })).isStreaming
      = true :=
  startCamera_error_recoverable _ false false rfl rfl rfl

/-- C8: calling `stopCamera` when no camera handle is present, streaming is
already false and the detection results are already empty leaves the state
exactly unchanged (and, being a total function, raises no error). -/
theorem stopCamera_noop (s : SessionState)
    (hc : s.camera = false) (hs : s.isStreaming = false)
    (hd : s.detectionResults = []) :
    stopCamera s = s := by
  cases s
  simp_all [stopCamera]

/-- Witness for `stopCamera_noop` at the fresh state. -/
theorem stopCamera_noop_witness :
    stopCamera
        { hands := false, video := false, camera := false, isInitialized := false,
          isStreaming := false, detectionResults := [], error := "" }
      = { hands := false, video := false, camera := false, isInitialized := false,
          isStreaming := false, detectionResults := [], error := "" } :=
  stopCamera_noop _ rfl rfl rfl

/-- The per-edge transformed segment of an edge `p`, reading both endpoints
from the landmark list (used only to state which segments the loop emits;
defaulting is irrelevant because it is applied only to edges whose endpoints
are present). -/
def mkSegmentAt (f : FitTransform) (lms : List (Option Landmark))
    (p : Nat × Nat) : Segment :=
  mkSegment f ((lmAt lms p.1).getD { x := 0, y := 0, z := 0, visibility := none })
    ((lmAt lms p.2).getD { x := 0, y := 0, z := 0, visibility := none })

theorem filterMap_edges_eq (f : FitTransform) (lms : List (Option Landmark))
    (l : List (Nat × Nat)) :
    (l.filterMap fun p =>
        match lmAt lms p.1, lmAt lms p.2 with
        | some a, some b => some (mkSegment f a b)
        | _, _ => none)
      = (l.filter (edgeDrawn lms)).map (mkSegmentAt f lms) := by
  induction l with
  | nil => rfl
  | cons hd tl ih =>
    rw [List.filterMap_cons, List.filter_cons]
    cases h1 : lmAt lms hd.1 <;> cases h2 : lmAt lms hd.2 <;>
      simp [edgeDrawn, h1, h2, ih, mkSegmentAt]

/-- C6: for any 21-slot landmark list with possibly missing entries, the
connection loop draws exactly the edges of the hardcoded list whose two
endpoint slots are both present — in order, one transformed segment per such
edge — and skips every edge referencing a missing endpoint. The embedding is
a total function, so no exception arises. -/
theorem connection_edges_skip_missing (f : FitTransform)
    (lms : List (Option Landmark)) (h21 : lms.length = 21) :
    connectionSegments f lms =
      (connections.filter (edgeDrawn lms)).map (mkSegmentAt f lms) :=
  filterMap_edges_eq f lms connections

/-- A 21-slot landmark list with the slots at indices 7 and 10 missing
(19 of 21 populated). -/
def lmsMissingTwo : List (Option Landmark) :=
  (List.range 21).map fun i =>
    if i = 7 ∨ i = 10 then none
    else some { x := (i : ℚ) / 21, y := (i : ℚ) / 42, z := 0, visibility := none }

/-- A concrete fit transform for witnesses. -/
def fitSample : FitTransform :=
  { scaleX := 600, scaleY := 600, offsetX := 0, offsetY := 0 }

/-- Witness for `connection_edges_skip_missing` on a hand with 19 of 21
landmarks populated. -/
theorem connection_edges_skip_missing_witness :
    connectionSegments fitSample lmsMissingTwo =
      (connections.filter (edgeDrawn lmsMissingTwo)).map
        (mkSegmentAt fitSample lmsMissingTwo) :=
  connection_edges_skip_missing fitSample lmsMissingTwo (by rfl)

/-- C9 counterexample: the hardcoded connection list does not have 20 edges
— its length is 21. -/
theorem connections_not_twenty : connections.length ≠ 20 := by decide

/-- C9 (amended): the hardcoded skeletal connection graph consists of
exactly 21 edges over the 21 landmark indices — the four-edge thumb, index,
middle, ring and pinky chains plus the wrist-to-pinky-base edge `(0, 17)`. -/
theorem connections_card :
    connections.length = 21 ∧
    connections.all (fun p => decide (p.1 < 21 ∧ p.2 < 21)) = true ∧
    (0, 17) ∈ connections := by
  refine ⟨by decide, by decide, by decide⟩

/-- One entry of `results.multiHandedness`: classification score and label,
each possibly absent. -/
structure Handedness where
  score : Option ℚ
  label : Option String
deriving DecidableEq

/-- The detector's `Results` payload as used by `onResults`: both arrays may
be absent (undefined). -/
structure Results where
  multiHandLandmarks : Option (List (List (Option Landmark)))
  multiHandedness : Option (List Handedness)
deriving DecidableEq

/-- JavaScript `handedness?.score || 0`: absent reads as 0; a numeric score
passes through (0 stays 0). -/
def scoreOrZero : Option ℚ → ℚ
  | none => 0
  | some s => s

/-- JavaScript `handedness?.label || 'Unknown'`: absent — or the falsy empty
string — reads as Unknown. -/
def labelOrUnknown : Option String → String
  | none => "Unknown"
  | some l => if l = "" then "Unknown" else l

/-- Embedding of the detected-hands construction in `onResults`
(useMediaPipe.ts lines 76-94): only when both arrays are present, each hand's
landmarks are copied and paired with the handedness entry of the same index
(score defaulting to 0 and label to Unknown when absent). -/
def buildDetectedHands (r : Results) : List HandDetectionResult :=
  match r.multiHandLandmarks, r.multiHandedness with
  | some lmss, some hs =>
    lmss.mapIdx fun i lms =>
      { landmarks := lms
        confidence := scoreOrZero ((hs[i]?).bind Handedness.score)
        handedness := labelOrUnknown ((hs[i]?).bind Handedness.label) }
  | _, _ => []

/-- One drawing command issued to the canvas context, keeping the geometry
and opacity the claims speak about. -/
inductive DrawCmd where
  | background (w h : ℚ)
  | segment (s : Segment)
  | disc (d : Disc)
deriving DecidableEq

/-- Embedding of the per-hand body of `drawLandmarks`: the connection
segments, then one disc per present landmark slot. -/
def drawHand (f : FitTransform) (hand : HandDetectionResult) : List DrawCmd :=
  ((connectionSegments f hand.landmarks).map DrawCmd.segment) ++
    ((hand.landmarks.filterMap id).map fun lm => DrawCmd.disc (drawDisc f lm))

/-- Inputs `onResults` reads from its environment: whether the canvas ref and
its 2D context are available, the video element with its intrinsic size
(`none` models a null video element; a zero width or height models missing
metadata, which JavaScript's truthiness guard treats as unavailable), the
viewport size the canvas is resized to, and the detector results. -/
structure RenderInput where
  canvasPresent : Bool
  ctxPresent : Bool
  videoSize : Option (ℚ × ℚ)
  windowW : ℚ
  windowH : ℚ
  results : Results

/-- What one `onResults` invocation does: whether the canvas backing store
was resized, the drawing commands issued, and the value passed to
`setDetectionResults` (if reached). -/
structure RenderEffect where
  canvasResized : Bool
  cmds : List DrawCmd
  resultsSet : Option (List HandDetectionResult)
deriving DecidableEq

/-- Embedding of `onResults` (useMediaPipe.ts lines 30-98): return if the
canvas is absent; return if the 2D context is absent; resize the canvas to
the viewport; return if the video element is absent or either intrinsic
dimension is zero; otherwise compute the fit transform, paint the
background, build the detected hands, store them and draw each hand. -/
def onResults (inp : RenderInput) : RenderEffect :=
  if !inp.canvasPresent then
    { canvasResized := false, cmds := [], resultsSet := none }
  else if !inp.ctxPresent then
    { canvasResized := false, cmds := [], resultsSet := none }
  else
    match inp.videoSize with
    | none => { canvasResized := true, cmds := [], resultsSet := none }
    | some (vw, vh) =>
      if vw = 0 ∨ vh = 0 then
        { canvasResized := true, cmds := [], resultsSet := none }
      else
        let f := computeFit vw vh inp.windowW inp.windowH
        let hands := buildDetectedHands inp.results
        { canvasResized := true
          cmds := DrawCmd.background inp.windowW inp.windowH ::
            (hands.map (drawHand f)).join
          resultsSet := some hands }

/-- C7: whenever the canvas, the 2D context, the video element, or either
intrinsic video dimension is unavailable, `onResults` issues no drawing
command and stores no detection results; the embedding is a total function,
so no error is raised. -/
theorem onResults_noop (inp : RenderInput)
    (h : inp.canvasPresent = false ∨ inp.ctxPresent = false ∨
         inp.videoSize = none ∨
         ∃ vw vh, inp.videoSize = some (vw, vh) ∧ (vw = 0 ∨ vh = 0)) :
    (onResults inp).cmds = [] ∧ (onResults inp).resultsSet = none := by
  rcases h with h | h | h | ⟨vw, vh, hv, hz⟩
  · simp [onResults, h]
  · cases hc : inp.canvasPresent <;> simp [onResults, hc, h]
  · cases hc : inp.canvasPresent <;> cases hx : inp.ctxPresent <;>
      simp [onResults, hc, hx, h]
  · rcases hz with hz | hz <;>
      cases hc : inp.canvasPresent <;> cases hx : inp.ctxPresent <;>
        simp [onResults, hc, hx, hv, hz]

/-- Witness for `onResults_noop`: a present canvas and context but a video
element without intrinsic dimensions (width and height 0). -/
theorem onResults_noop_witness :
    (onResults
        { canvasPresent := true, ctxPresent := true, videoSize := some (0, 0),
          windowW := 800, windowH := 600,
          results := { multiHandLandmarks := none, multiHandedness := none } }).cmds
      = [] ∧
    (onResults
        { canvasPresent := true, ctxPresent := true, videoSize := some (0, 0),
          windowW := 800, windowH := 600,
          results := { multiHandLandmarks := none, multiHandedness := none } }).resultsSet
      = none :=
  onResults_noop _ (Or.inr (Or.inr (Or.inr ⟨0, 0, rfl, Or.inl rfl⟩)))

/-- C10: a landmark whose visibility is absent, or exactly 0, is rendered
with effective visibility 1 — its disc (position, radius, gradient alphas
and label alpha) is identical to that of the same landmark with visibility
1. -/
theorem zero_visibility_full (f : FitTransform) (lm : Landmark)
    (h : lm.visibility = none ∨ lm.visibility = some 0) :
    effVisibility lm.visibility = 1 ∧
    drawDisc f lm = drawDisc f { lm with visibility := some 1 } := by
  rcases h with h | h <;> simp [effVisibility, drawDisc, h]

/-- Witness for `zero_visibility_full` at a concrete landmark with
visibility 0. -/
theorem zero_visibility_full_witness :
    effVisibility (some 0) = 1 ∧
    drawDisc fitSample { x := 1 / 2, y := 1 / 3, z := 0, visibility := some 0 }
      = drawDisc fitSample { x := 1 / 2, y := 1 / 3, z := 0, visibility := some 1 } :=
  zero_visibility_full fitSample
    { x := 1 / 2, y := 1 / 3, z := 0, visibility := some 0 } (Or.inr rfl)
